import Mathlib

/-!
Verification of the `luvemix-rust` minimal 8-bit CPU model (`src/main.rs`).

The Rust source is shallowly embedded: machine integers (`u8`, `u16`) become
`Nat` values kept in range by the operations themselves; the bitwise `!mask`
complement on an 8-bit value is the explicit `255 ^^^ mask`; the `HashMap`
backing `CheapoMemory` becomes a function `Nat → Option Nat` with pointwise
update, which is the observable behaviour of `insert`/`get`.
-/

namespace Luvemix

/-- Rust `types::DATA_WIDTH = 8`. -/
def DATA_WIDTH : Nat := 8

/-- Rust `cpu::Flag`: the named status bits. -/
inductive Flag where
  | ZRO
  | NEG
deriving DecidableEq

/-- Rust `Flag::to_mask`: `ZRO = 0b0000_0010`, `NEG = 0b1000_0000`. -/
def Flag.to_mask : Flag → Nat
  | .ZRO => 0b00000010
  | .NEG => 0b10000000

/-- Rust `cpu::CpuState`: the register file. `pc`, `sp`, `mar` are 16-bit in the
source; `a`, `sr`, `ir`, `mdr` are 8-bit. -/
structure CpuState where
  pc : Nat
  sp : Nat
  a : Nat
  sr : Nat
  ir : Nat
  mar : Nat
  mdr : Nat
deriving DecidableEq

/-- Rust `CpuState::new`: all registers zero. -/
def CpuState.new : CpuState :=
  { sr := 0, pc := 0, sp := 0, a := 0, ir := 0, mar := 0, mdr := 0 }

/-- Rust `CpuState::get_flag`: `self.sr & flag.to_mask() != 0`. -/
def CpuState.get_flag (s : CpuState) (flag : Flag) : Bool :=
  s.sr &&& flag.to_mask != 0

/-- Rust `CpuState::set_flag`: OR the mask in when `val`, else AND with the 8-bit
complement of the mask (`!mask` on a `u8` is `255 ^^^ mask`). -/
def CpuState.set_flag (s : CpuState) (flag : Flag) (val : Bool) : CpuState :=
  let mask := flag.to_mask
  let flag_val := if val then s.sr ||| mask else s.sr &&& (255 ^^^ mask)
  { s with sr := flag_val }

/-- Rust `CpuState::set_a`: store the value in `a`, then recompute `ZRO` and `NEG`.
Rust parses `val >> DATA_WIDTH - 1` as `val >> (DATA_WIDTH - 1)`. -/
def CpuState.set_a (s : CpuState) (val : Nat) : CpuState :=
  let s1 := { s with a := val }
  let s2 := s1.set_flag Flag.ZRO (decide (val = 0))
  s2.set_flag Flag.NEG (decide (0 < val >>> (DATA_WIDTH - 1)))

/-- Rust's checked right shift on an 8-bit operand: shifting by `n ≥ w` bits
is an overflow (a trap in debug builds), modeled as `none`. -/
def shrChecked (x n w : Nat) : Option Nat :=
  if n < w then some (x >>> n) else none

/-- Rust `cpu::CheapoMemory`: the `HashMap<Address, Data>` is embedded by its
observable lookup function. -/
structure CheapoMemory where
  map : Nat → Option Nat

/-- Rust `CheapoMemory::new`: the empty map. -/
def CheapoMemory.new : CheapoMemory :=
  { map := fun _ => none }

/-- Rust `Memory::read` for `CheapoMemory`: look the address up, return the stored
byte or `none`. -/
def CheapoMemory.read (m : CheapoMemory) (addr : Nat) : Option Nat :=
  match m.map addr with
  | none => none
  | some data => some data

/-- Rust `Memory::write` for `CheapoMemory`: `map.insert(addr, val)`. -/
def CheapoMemory.write (m : CheapoMemory) (addr : Nat) (val : Nat) : CheapoMemory :=
  { map := fun a => if a = addr then some val else m.map a }

/-- Rust `cpu::BusMode`. -/
inductive BusMode where
  | READ
  | WRITE
deriving DecidableEq

/-- Rust `cpu::Cpu`: a `CpuState` plus the three bus lines. -/
structure Cpu where
  state : CpuState
  addr_bus : Nat
  data_bus : Nat
  rwb : BusMode
deriving DecidableEq

/-- Rust `Cpu::new`: fresh state, bus lines mirroring `mar`/`mdr`, direction READ. -/
def Cpu.new : Cpu :=
  let state := CpuState.new
  { state := state, addr_bus := state.mar, data_bus := state.mdr,
    rwb := BusMode.READ }

/-- Rust `Cpu::setup_cycle`: assert the fixed address, data and direction. -/
def Cpu.setup_cycle (c : Cpu) : Cpu :=
  { c with addr_bus := 0xFF, data_bus := 42, rwb := BusMode.WRITE }

/-- Rust `Cpu::complete_cycle`: consume the data bus into the accumulator. -/
def Cpu.complete_cycle (c : Cpu) : Cpu :=
  let data := c.data_bus
  { c with state := c.state.set_a data }

/-- A state-mutating public operation on `CpuState` (for sequences of calls;
`get_flag` takes `&self` and mutates nothing). -/
inductive Op where
  | setFlag (f : Flag) (v : Bool)
  | setA (x : Nat)

/-- Apply one operation. -/
def CpuState.runOp (s : CpuState) : Op → CpuState
  | .setFlag f v => s.set_flag f v
  | .setA x => s.set_a x

/-- Apply a sequence of operations in order. -/
def CpuState.run (s : CpuState) (ops : List Op) : CpuState :=
  ops.foldl CpuState.runOp s

/-- The spec's claimed invariant: `ZRO == (a == 0)` and
`NEG == (bit 7 of a set)`. -/
def flagInvariant (s : CpuState) : Prop :=
  s.get_flag Flag.ZRO = decide (s.a = 0) ∧
    s.get_flag Flag.NEG = decide (s.a &&& 128 ≠ 0)

instance (s : CpuState) : Decidable (flagInvariant s) := by
  unfold flagInvariant; infer_instance

/-! ## Bitwise helper lemmas -/

/-- Setting bits with OR then masking with the same mask yields the mask. -/
lemma lor_land_self (x m : Nat) : (x ||| m) &&& m = m := by
  apply Nat.eq_of_testBit_eq
  intro i
  simp only [Nat.testBit_land, Nat.testBit_lor]
  cases x.testBit i <;> cases m.testBit i <;> simp

/-- AND distributes over OR on the left operand. -/
lemma lor_land_distrib (x y z : Nat) : (x ||| y) &&& z = (x &&& z) ||| (y &&& z) := by
  apply Nat.eq_of_testBit_eq
  intro i
  simp only [Nat.testBit_land, Nat.testBit_lor]
  cases x.testBit i <;> cases y.testBit i <;> cases z.testBit i <;> simp

/-- Clearing bits with the complement of a disjoint mask and then testing a
mask: the inner product is rewritten by associativity to a concrete value. -/
lemma land_land_concrete (x m k r : Nat) (h : m &&& k = r) :
    (x &&& m) &&& k = x &&& r := by
  rw [Nat.land_assoc, h]

/-- Masking after an OR of a mask disjoint from the tested one. -/
lemma lor_land_other (x m k : Nat) (h : m &&& k = 0) :
    (x ||| m) &&& k = x &&& k := by
  rw [lor_land_distrib, h, Nat.or_zero]

/-- The round trip through `set_flag` then `get_flag` on the same flag. -/
lemma set_flag_get_flag_same (s : CpuState) (f : Flag) (v : Bool) :
    (s.set_flag f v).get_flag f = v := by
  cases f <;> cases v
  · show ((s.sr &&& (255 ^^^ 2)) &&& 2 != 0) = false
    rw [land_land_concrete _ _ _ 0 (by decide), Nat.and_zero]
    rfl
  · show ((s.sr ||| 2) &&& 2 != 0) = true
    rw [lor_land_self]
    rfl
  · show ((s.sr &&& (255 ^^^ 128)) &&& 128 != 0) = false
    rw [land_land_concrete _ _ _ 0 (by decide), Nat.and_zero]
    rfl
  · show ((s.sr ||| 128) &&& 128 != 0) = true
    rw [lor_land_self]
    rfl

/-- Applying `set_flag` on one flag leaves the other flag's `get_flag` value intact. -/
lemma set_flag_get_flag_other (s : CpuState) (f g : Flag) (hfg : f ≠ g) (v : Bool) :
    (s.set_flag f v).get_flag g = s.get_flag g := by
  cases f <;> cases g
  · exact absurd rfl hfg
  · cases v
    · show ((s.sr &&& (255 ^^^ 2)) &&& 128 != 0) = (s.sr &&& 128 != 0)
      rw [land_land_concrete _ _ _ 128 (by decide)]
    · show ((s.sr ||| 2) &&& 128 != 0) = (s.sr &&& 128 != 0)
      rw [lor_land_other _ _ _ (by decide)]
  · cases v
    · show ((s.sr &&& (255 ^^^ 128)) &&& 2 != 0) = (s.sr &&& 2 != 0)
      rw [land_land_concrete _ _ _ 2 (by decide)]
    · show ((s.sr ||| 128) &&& 2 != 0) = (s.sr &&& 2 != 0)
      rw [lor_land_other _ _ _ (by decide)]
  · exact absurd rfl hfg

set_option maxRecDepth 4000

/-- On byte values the top-bit test by shifting agrees with the mask test. -/
lemma shr_seven_iff_land (x : Nat) (hx : x < 256) :
    decide (0 < x >>> 7) = decide (x &&& 128 ≠ 0) := by
  revert hx
  revert x
  decide

/-- What one `set_a` call does to `a` and both flags, for any prior state. -/
lemma set_a_spec (s : CpuState) (x : Nat) (hx : x < 256) :
    (s.set_a x).a = x ∧
      (s.set_a x).get_flag Flag.ZRO = decide (x = 0) ∧
      (s.set_a x).get_flag Flag.NEG = decide (x &&& 128 ≠ 0) := by
  refine ⟨rfl, ?_, ?_⟩
  · rw [CpuState.set_a]
    rw [set_flag_get_flag_other _ _ _ (by simp) _]
    exact set_flag_get_flag_same _ _ _
  · rw [CpuState.set_a]
    rw [set_flag_get_flag_same]
    exact shr_seven_iff_land x hx

/-! ## Claims -/

/-- Claim C1 as stated is false: `set_flag` is public, so a caller can break
the flag/accumulator coupling. After the operation sequence `set_a(0)` then
`set_flag(ZRO, false)` on a fresh `CpuState`, the accumulator is `0` but
`get_flag(ZRO)` is `false`, violating the claimed invariant. -/
theorem claim_C1_counterexample :
    ¬ flagInvariant (CpuState.new.run [Op.setA 0, Op.setFlag Flag.ZRO false]) := by
  decide

/-- Claim C1 (amended): for every starting `CpuState` and every sequence of
public operations whose final operation is `set_a(x)` with `x` a byte, the
invariant `get_flag(ZRO) == (a == 0)` and `get_flag(NEG) == (bit 7 of a)`
holds afterwards; interleaved earlier `set_flag` calls cannot prevent the
final `set_a` from re-establishing it. -/
theorem claim_C1_invariant_after_set_a (s : CpuState) (ops : List Op) (x : Nat)
    (hx : x < 256) :
    flagInvariant (s.run (ops ++ [Op.setA x])) := by
  have hrun : s.run (ops ++ [Op.setA x]) = (s.run ops).set_a x := by
    simp [CpuState.run, List.foldl_append, CpuState.runOp]
  rw [hrun]
  obtain ⟨h1, h2, h3⟩ := set_a_spec (s.run ops) x hx
  exact ⟨by rw [h1, h2], by rw [h1, h3]⟩

/-- Witness for the amended claim C1 at a concrete operation sequence. -/
theorem claim_C1_invariant_after_set_a_witness :
    (42 : Nat) < 256 ∧
      flagInvariant
        (CpuState.new.run ([Op.setFlag Flag.NEG true] ++ [Op.setA 42])) :=
  ⟨by decide,
    claim_C1_invariant_after_set_a CpuState.new [Op.setFlag Flag.NEG true] 42
      (by decide)⟩

/-- Claim C2: for every byte value `x` and every prior `CpuState`, after
`set_a(x)` the accumulator equals `x`, `get_flag(ZRO) == (x == 0)` and
`get_flag(NEG) == ((x & 0x80) != 0)`. -/
theorem claim_C2_set_a_coupling (s : CpuState) (x : Nat) (hx : x < 256) :
    (s.set_a x).a = x ∧
      (s.set_a x).get_flag Flag.ZRO = decide (x = 0) ∧
      (s.set_a x).get_flag Flag.NEG = decide (x &&& 0x80 ≠ 0) :=
  set_a_spec s x hx

/-- Witness for claim C2 at `x = 5` from the fresh state. -/
theorem claim_C2_set_a_coupling_witness :
    (5 : Nat) < 256 ∧
      ((CpuState.new.set_a 5).a = 5 ∧
        (CpuState.new.set_a 5).get_flag Flag.ZRO = decide ((5 : Nat) = 0) ∧
        (CpuState.new.set_a 5).get_flag Flag.NEG =
          decide ((5 : Nat) &&& 0x80 ≠ 0)) :=
  ⟨by decide, claim_C2_set_a_coupling CpuState.new 5 (by decide)⟩

/-- Claim C3: from a fresh `Cpu` and fresh `CheapoMemory`, `setup_cycle`
asserts `addr_bus = 0xFF`, `data_bus = 42`, `rwb = WRITE`; after the driver
writes `42` to `0xFF` and the CPU runs `complete_cycle`, the accumulator is
`42` with `ZRO = false` and `NEG = false`, and reading `0xFF` yields
`some 42`. -/
theorem claim_C3_cycle_scenario :
    (Cpu.new.setup_cycle).addr_bus = 0xFF ∧
      (Cpu.new.setup_cycle).data_bus = 42 ∧
      (Cpu.new.setup_cycle).rwb = BusMode.WRITE ∧
      (Cpu.new.setup_cycle.complete_cycle).state.a = 42 ∧
      (Cpu.new.setup_cycle.complete_cycle).state.get_flag Flag.ZRO = false ∧
      (Cpu.new.setup_cycle.complete_cycle).state.get_flag Flag.NEG = false ∧
      (CheapoMemory.new.write 0xFF 42).read 0xFF = some 42 := by
  refine ⟨rfl, rfl, rfl, rfl, ?_, ?_, ?_⟩ <;> decide

/-- Claim C4: for distinct flags `f1 ≠ f2`, `set_flag(f1, v)` does not change
`get_flag(f2)`; moreover no bit of the 8-bit `sr` outside `f1`'s mask is
changed. -/
theorem claim_C4_flag_isolation (f1 f2 : Flag) (h : f1 ≠ f2) (s : CpuState)
    (v : Bool) :
    (s.set_flag f1 v).get_flag f2 = s.get_flag f2 ∧
      ∀ i < 8, f1.to_mask.testBit i = false →
        (s.set_flag f1 v).sr.testBit i = s.sr.testBit i := by
  refine ⟨set_flag_get_flag_other s f1 f2 h v, ?_⟩
  intro i hi hmask
  have hall : ∀ j, j < 8 → Nat.testBit 255 j = true := by decide
  have h255 : Nat.testBit 255 i = true := hall i hi
  cases f1 <;> cases v <;>
    simp only [CpuState.set_flag, Flag.to_mask] at hmask ⊢ <;>
    first
      | (show Nat.testBit (s.sr &&& (255 ^^^ _)) i = s.sr.testBit i
         rw [Nat.testBit_land, Nat.testBit_xor, h255, hmask]
         cases s.sr.testBit i <;> rfl)
      | (show Nat.testBit (s.sr ||| _) i = s.sr.testBit i
         rw [Nat.testBit_lor, hmask]
         cases s.sr.testBit i <;> rfl)

/-- Witness for claim C4 at `f1 = ZRO`, `f2 = NEG`, the fresh state, `v = true`. -/
theorem claim_C4_flag_isolation_witness :
    Flag.ZRO ≠ Flag.NEG ∧
      (CpuState.new.set_flag Flag.ZRO true).get_flag Flag.NEG =
        CpuState.new.get_flag Flag.NEG :=
  ⟨by decide,
    (claim_C4_flag_isolation Flag.ZRO Flag.NEG (by decide) CpuState.new true).1⟩

/-- Claim C5: for every flag, state and boolean, `set_flag(f, v)` followed by
`get_flag(f)` returns `v`. -/
theorem claim_C5_flag_round_trip (s : CpuState) (f : Flag) (v : Bool) :
    (s.set_flag f v).get_flag f = v :=
  set_flag_get_flag_same s f v

/-- Claim C6: last write wins — after `write(addr, v1)` a read of `addr`
yields `some v1`, and after a further `write(addr, v2)` it yields `some v2`,
for every prior memory state. -/
theorem claim_C6_memory_write_read (m : CheapoMemory) (addr v1 v2 : Nat) :
    (m.write addr v1).read addr = some v1 ∧
      ((m.write addr v1).write addr v2).read addr = some v2 := by
  constructor <;> simp [CheapoMemory.read, CheapoMemory.write]

/-- Claim C7: a fresh `CheapoMemory` reads `none` at every address of the
16-bit address space, and that result is observably distinct from `some 0`. -/
theorem claim_C7_memory_default (addr : Nat) (h : addr ≤ 65535) :
    CheapoMemory.new.read addr = none ∧ CheapoMemory.new.read addr ≠ some 0 :=
  ⟨rfl, by simp [CheapoMemory.read, CheapoMemory.new]⟩

/-- Witness for claim C7 at address `0xFF`. -/
theorem claim_C7_memory_default_witness :
    (0xFF : Nat) ≤ 65535 ∧
      (CheapoMemory.new.read 0xFF = none ∧
        CheapoMemory.new.read 0xFF ≠ some 0) :=
  ⟨by decide, claim_C7_memory_default 0xFF (by decide)⟩

/-- Claim C8: the flag computation inside `set_a` shifts by
`DATA_WIDTH - 1 = 7`, strictly less than the 8-bit width, so the checked
shift never takes its overflow branch for any input, and the `NEG` flag it
produces is exactly the shift test. -/
theorem claim_C8_shift_total (x : Nat) :
    shrChecked x (DATA_WIDTH - 1) DATA_WIDTH = some (x >>> (DATA_WIDTH - 1)) ∧
      (shrChecked x (DATA_WIDTH - 1) DATA_WIDTH).isSome = true ∧
      ∀ s : CpuState,
        (s.set_a x).get_flag Flag.NEG = decide (0 < x >>> (DATA_WIDTH - 1)) := by
  refine ⟨by simp [shrChecked, DATA_WIDTH], by simp [shrChecked, DATA_WIDTH], ?_⟩
  intro s
  rw [CpuState.set_a]
  exact set_flag_get_flag_same _ _ _

/-- Claim C9: `setup_cycle` leaves the embedded `CpuState` entirely
unchanged — it mutates only the bus lines. -/
theorem claim_C9_setup_cycle_frame (c : Cpu) :
    (c.setup_cycle).state = c.state ∧
      (c.setup_cycle).state.pc = c.state.pc ∧
      (c.setup_cycle).state.sp = c.state.sp ∧
      (c.setup_cycle).state.a = c.state.a ∧
      (c.setup_cycle).state.sr = c.state.sr ∧
      (c.setup_cycle).state.ir = c.state.ir ∧
      (c.setup_cycle).state.mar = c.state.mar ∧
      (c.setup_cycle).state.mdr = c.state.mdr :=
  ⟨rfl, rfl, rfl, rfl, rfl, rfl, rfl, rfl⟩

/-- Claim C10: writing one address does not change what any distinct address
reads. -/
theorem claim_C10_memory_frame (m : CheapoMemory) (addr1 addr2 v : Nat)
    (h : addr1 ≠ addr2) :
    (m.write addr1 v).read addr2 = m.read addr2 := by
  simp only [CheapoMemory.read, CheapoMemory.write]
  rw [if_neg fun hh => h hh.symm]

/-- Witness for claim C10 at addresses `0` and `1`. -/
theorem claim_C10_memory_frame_witness :
    (0 : Nat) ≠ 1 ∧
      ((CheapoMemory.new.write 0 5).read 1 = CheapoMemory.new.read 1) :=
  ⟨by decide, claim_C10_memory_frame CheapoMemory.new 0 1 5 (by decide)⟩

end Luvemix
